import Mathlib

set_option maxRecDepth 10000

/-!
Shallow embedding of `src/langflow_runner.py` (a single-file CLI client that
POSTs a message to a hosted Langflow flow and prints/saves the JSON response),
together with theorems settling the specification claims about it.

Modelling conventions:
* Python `None`-able strings are `Option String`; Python truthiness of such a
  value is `pyTruthyStr`.
* JSON values are the inductive `Json`.  Python floats are kept as their
  source lexeme (`Json.floatRaw`): no claim exercises float arithmetic or
  float re-formatting.
* `json.dumps` (compact, default separators) is `dumpsVal`;
  `json.dumps(..., indent=2)` is `dumpsIndentVal 0`.
* `json.loads` is `json_loads`, a fuel-based recursive-descent parser; only
  its success/failure and the parsed value matter to the program (the parse
  error message is discarded by `main`, which replaces it with a fixed
  message).
* External effects are oracles passed explicitly: the filesystem test
  `Path(p).is_file()` is `fs : String → Bool`; the optional
  `langflow.load.upload_file` import is `uploadAvailable : Bool` plus an
  opaque-to-the-claims function argument; the HTTP layer (`requests.post`
  followed by `raise_for_status` and `.json()`) is
  `transport : Request → TransportResult`.
-/

/-- JSON values as manipulated by the program.  Objects keep their key order
(CPython dicts preserve insertion order). -/
inductive Json where
  | null : Json
  | bool : Bool → Json
  | num : Int → Json
  | floatRaw : String → Json
  | str : String → Json
  | arr : List Json → Json
  | obj : List (String × Json) → Json

/-- Python truthiness of a JSON value (`if tweaks:` on line 79). -/
def Json.pyTruthy : Json → Bool
  | .null => false
  | .bool b => b
  | .num n => n != 0
  | .floatRaw _ => true
  | .str s => !s.isEmpty
  | .arr xs => !xs.isEmpty
  | .obj fs => !fs.isEmpty

/-- Python truthiness of an optional string (`if not LANGFLOW_ID`,
`if not args.application_token`, ...): `None` and `""` are falsy. -/
def pyTruthyStr : Option String → Bool
  | none => false
  | some s => !s.isEmpty

/-- How an optional string renders inside a Python f-string: `None` prints as
the four letters `None`. -/
def pyStrOpt : Option String → String
  | none => "None"
  | some s => s

/-- Hex digit for `\uXXXX` escapes (lower case, as CPython emits). -/
def hexDigit (n : Nat) : Char :=
  if n < 10 then Char.ofNat (48 + n) else Char.ofNat (87 + n)

/-- Four-digit hex rendering of a code unit. -/
def hex4 (n : Nat) : String :=
  String.mk [hexDigit (n / 4096 % 16), hexDigit (n / 256 % 16),
             hexDigit (n / 16 % 16), hexDigit (n % 16)]

/-- `\uXXXX` escape of a code point, using a surrogate pair above `0xFFFF`
(CPython `json` with `ensure_ascii=True`). -/
def unicodeEscape (n : Nat) : String :=
  if n < 65536 then "\\u" ++ hex4 n
  else
    "\\u" ++ hex4 (55296 + (n - 65536) / 1024) ++ "\\u" ++ hex4 (56320 + (n - 65536) % 1024)

/-- Escape one character the way CPython `json.dumps` (default
`ensure_ascii=True`) does. -/
def escapeJsonChar (c : Char) : String :=
  if c = '"' then "\\\""
  else if c = '\\' then "\\\\"
  else if c = '\n' then "\\n"
  else if c = '\r' then "\\r"
  else if c = '\t' then "\\t"
  else if c = '\x08' then "\\b"
  else if c = '\x0c' then "\\f"
  else if c.toNat < 32 || 126 < c.toNat then unicodeEscape c.toNat
  else String.singleton c

/-- JSON string literal rendering used by `json.dumps`. -/
def quoteJson (s : String) : String :=
  "\"" ++ String.join (s.data.map escapeJsonChar) ++ "\""

mutual

/-- `json.dumps(v)` with default separators: item separator is a comma plus a
space, key separator is a colon plus a space. -/
def dumpsVal : Json → String
  | .null => "null"
  | .bool true => "true"
  | .bool false => "false"
  | .num n => toString n
  | .floatRaw s => s
  | .str s => quoteJson s
  | .arr xs => "[" ++ dumpsElems xs ++ "]"
  | .obj fs => "\x7b" ++ dumpsFields fs ++ "\x7d"

/-- Comma-space separated rendering of array elements. -/
def dumpsElems : List Json → String
  | [] => ""
  | [x] => dumpsVal x
  | x :: y :: xs => dumpsVal x ++ ", " ++ dumpsElems (y :: xs)

/-- Comma-space separated rendering of object members. -/
def dumpsFields : List (String × Json) → String
  | [] => ""
  | [(k, v)] => quoteJson k ++ ": " ++ dumpsVal v
  | (k, v) :: f :: fs => quoteJson k ++ ": " ++ dumpsVal v ++ ", " ++ dumpsFields (f :: fs)

end

/-- A run of `n` spaces, for indented output. -/
def nspaces (n : Nat) : String :=
  String.mk (List.replicate n ' ')

mutual

/-- `json.dumps(v, indent=2)` rendered with the enclosing indentation level
`ind`: empty containers stay on one line, non-empty containers put each item
on its own line indented two further spaces, and with `indent` set CPython
switches the item separator to a bare comma and keeps the colon-space key
separator. -/
def dumpsIndentVal (ind : Nat) : Json → String
  | .null => "null"
  | .bool true => "true"
  | .bool false => "false"
  | .num n => toString n
  | .floatRaw s => s
  | .str s => quoteJson s
  | .arr [] => "[]"
  | .arr (x :: xs) =>
      "[\n" ++ dumpsIndentElems (ind + 2) (x :: xs) ++ "\n" ++ nspaces ind ++ "]"
  | .obj [] => "\x7b\x7d"
  | .obj (f :: fs) =>
      "\x7b\n" ++ dumpsIndentFields (ind + 2) (f :: fs) ++ "\n" ++ nspaces ind ++ "\x7d"

/-- Indented array elements, one per line, comma-newline separated. -/
def dumpsIndentElems (ind : Nat) : List Json → String
  | [] => ""
  | [x] => nspaces ind ++ dumpsIndentVal ind x
  | x :: y :: xs =>
      nspaces ind ++ dumpsIndentVal ind x ++ ",\n" ++ dumpsIndentElems ind (y :: xs)

/-- Indented object members, one per line, comma-newline separated. -/
def dumpsIndentFields (ind : Nat) : List (String × Json) → String
  | [] => ""
  | [(k, v)] => nspaces ind ++ quoteJson k ++ ": " ++ dumpsIndentVal ind v
  | (k, v) :: f :: fs =>
      nspaces ind ++ quoteJson k ++ ": " ++ dumpsIndentVal ind v ++ ",\n" ++
        dumpsIndentFields ind (f :: fs)

end

example : dumpsVal (Json.obj [("result", Json.str "ok")]) = "\x7b\"result\": \"ok\"\x7d" := rfl

example : dumpsIndentVal 0 (Json.obj [("result", Json.str "ok")]) =
    "\x7b\n  \"result\": \"ok\"\n\x7d" := rfl

example : dumpsIndentVal 0 (Json.obj [("a", Json.obj [("b", Json.num 1)])]) =
    "\x7b\n  \"a\": \x7b\n    \"b\": 1\n  \x7d\n\x7d" := rfl

/-- JSON whitespace, as accepted between tokens by `json.loads`. -/
def jsonWs (c : Char) : Bool :=
  c = ' ' || c = '\t' || c = '\n' || c = '\r'

/-- Drop leading JSON whitespace. -/
def skipWs : List Char → List Char
  | [] => []
  | c :: cs => if jsonWs c then skipWs cs else c :: cs

/-- Value of a hex digit, if any (for `\uXXXX` escapes). -/
def hexVal (c : Char) : Option Nat :=
  if '0' ≤ c && c ≤ '9' then some (c.toNat - 48)
  else if 'a' ≤ c && c ≤ 'f' then some (c.toNat - 87)
  else if 'A' ≤ c && c ≤ 'F' then some (c.toNat - 70)
  else none

/-- Parse the body of a JSON string literal (the opening quote already
consumed), returning the decoded string and the remaining input.  Raw control
characters are rejected, as `json.loads` does in strict mode. -/
def parseStringBody (fuel : Nat) (cs : List Char) (acc : List Char) :
    Except String (String × List Char) :=
  match fuel with
  | 0 => .error "Unterminated string"
  | n + 1 =>
    match cs with
    | [] => .error "Unterminated string"
    | '"' :: rest => .ok (String.mk acc.reverse, rest)
    | '\\' :: rest =>
      match rest with
      | [] => .error "Unterminated string"
      | e :: rest1 =>
        if e = '"' then parseStringBody n rest1 ('"' :: acc)
        else if e = '\\' then parseStringBody n rest1 ('\\' :: acc)
        else if e = '/' then parseStringBody n rest1 ('/' :: acc)
        else if e = 'b' then parseStringBody n rest1 ('\x08' :: acc)
        else if e = 'f' then parseStringBody n rest1 ('\x0c' :: acc)
        else if e = 'n' then parseStringBody n rest1 ('\n' :: acc)
        else if e = 'r' then parseStringBody n rest1 ('\r' :: acc)
        else if e = 't' then parseStringBody n rest1 ('\t' :: acc)
        else if e = 'u' then
          match rest1 with
          | a :: b :: c :: d :: rest2 =>
            match hexVal a, hexVal b, hexVal c, hexVal d with
            | some ha, some hb, some hc, some hd =>
              parseStringBody n rest2 (Char.ofNat (((ha * 16 + hb) * 16 + hc) * 16 + hd) :: acc)
            | _, _, _, _ => .error "Invalid hex escape"
          | _ => .error "Invalid hex escape"
        else .error "Invalid escape"
    | c :: rest =>
      if c.toNat < 32 then .error "Invalid control character"
      else parseStringBody n rest (c :: acc)

/-- Numeric value of a digit run. -/
def natOfDigits (ds : List Char) : Nat :=
  ds.foldl (fun a c => a * 10 + (c.toNat - 48)) 0

/-- Negate a parsed JSON number (used after a leading minus sign). -/
def negJson : Json → Json
  | .num n => .num (-n)
  | .floatRaw s => .floatRaw ("-" ++ s)
  | j => j

/-- Parse the exponent suffix of a number, finishing the token.  A number
with a fraction or exponent part is kept as its lexeme (`Json.floatRaw`);
otherwise its integer value is kept. -/
def parseExpPart (lexeme : List Char) (isFloat : Bool) (intval : Nat) (cs : List Char) :
    Except String (Json × List Char) :=
  match cs with
  | e :: rest =>
    if e = 'e' || e = 'E' then
      let sgnRest : List Char × List Char :=
        match rest with
        | '+' :: r => (['+'], r)
        | '-' :: r => (['-'], r)
        | _ => ([], rest)
      let ds := sgnRest.2.takeWhile Char.isDigit
      if ds.isEmpty then .error "Expecting digits in exponent"
      else .ok (Json.floatRaw (String.mk (lexeme ++ e :: sgnRest.1 ++ ds)),
                sgnRest.2.dropWhile Char.isDigit)
    else if isFloat then .ok (Json.floatRaw (String.mk lexeme), cs)
    else .ok (Json.num (Int.ofNat intval), cs)
  | [] =>
    if isFloat then .ok (Json.floatRaw (String.mk lexeme), [])
    else .ok (Json.num (Int.ofNat intval), [])

/-- Parse the optional fraction part of a number, then its exponent part. -/
def parseFracExp (lexeme : List Char) (intval : Nat) (cs : List Char) :
    Except String (Json × List Char) :=
  match cs with
  | '.' :: rest =>
    let ds := rest.takeWhile Char.isDigit
    if ds.isEmpty then .error "Expecting digits in fraction"
    else parseExpPart (lexeme ++ '.' :: ds) true intval (rest.dropWhile Char.isDigit)
  | _ => parseExpPart lexeme false intval cs

/-- Parse an unsigned JSON number.  As in the JSON grammar, the integer part
is a single `0` or a nonzero digit followed by digits. -/
def parseUnsigned (cs : List Char) : Except String (Json × List Char) :=
  match cs with
  | c :: rest =>
    if c = '0' then parseFracExp ['0'] 0 rest
    else if c.isDigit then
      let ds := (c :: rest).takeWhile Char.isDigit
      parseFracExp ds (natOfDigits ds) ((c :: rest).dropWhile Char.isDigit)
    else .error "Expecting value"
  | [] => .error "Expecting value"

/-- Parse a JSON number, with optional leading minus sign. -/
def parseNumber (cs : List Char) : Except String (Json × List Char) :=
  match cs with
  | '-' :: rest =>
    match parseUnsigned rest with
    | .ok (j, r) => .ok (negJson j, r)
    | .error e => .error e
  | _ => parseUnsigned cs

/-- Match an exact literal suffix (for `true`, `false`, `null`). -/
def expectChars (lit : List Char) (cs : List Char) : Option (List Char) :=
  match lit, cs with
  | [], rest => some rest
  | l :: ls, c :: rest => if c = l then expectChars ls rest else none
  | _ :: _, [] => none

/-- Insert into an association list with CPython dict semantics: an existing
key is updated in place (keeping its original position), a new key is
appended. -/
def dictInsert (fs : List (String × Json)) (k : String) (v : Json) :
    List (String × Json) :=
  match fs with
  | [] => [(k, v)]
  | (k0, v0) :: rest => if k0 = k then (k0, v) :: rest else (k0, v0) :: dictInsert rest k v

/-- Fold a parsed member list into a dict (last duplicate key wins). -/
def buildDict (ms : List (String × Json)) : List (String × Json) :=
  ms.foldl (fun acc kv => dictInsert acc kv.1 kv.2) []

mutual

/-- Parse one JSON value; `cs` starts at a non-whitespace character. -/
def parseValue (fuel : Nat) (cs : List Char) : Except String (Json × List Char) :=
  match fuel with
  | 0 => .error "Input too deeply nested"
  | n + 1 =>
    match cs with
    | [] => .error "Expecting value"
    | c :: rest =>
      if c = '"' then
        match parseStringBody (rest.length + 1) rest [] with
        | .ok (s, r) => .ok (Json.str s, r)
        | .error e => .error e
      else if c = '\x7b' then
        match skipWs rest with
        | '\x7d' :: r2 => .ok (Json.obj [], r2)
        | r1 =>
          match parseMembers n r1 with
          | .ok (ms, r2) => .ok (Json.obj (buildDict ms), r2)
          | .error e => .error e
      else if c = '[' then
        match skipWs rest with
        | ']' :: r2 => .ok (Json.arr [], r2)
        | r1 =>
          match parseElems n r1 with
          | .ok (xs, r2) => .ok (Json.arr xs, r2)
          | .error e => .error e
      else if c = 't' then
        match expectChars ['r', 'u', 'e'] rest with
        | some r => .ok (Json.bool true, r)
        | none => .error "Expecting value"
      else if c = 'f' then
        match expectChars ['a', 'l', 's', 'e'] rest with
        | some r => .ok (Json.bool false, r)
        | none => .error "Expecting value"
      else if c = 'n' then
        match expectChars ['u', 'l', 'l'] rest with
        | some r => .ok (Json.null, r)
        | none => .error "Expecting value"
      else parseNumber cs

/-- Parse the non-empty member list of an object (input starts at the first
member, whitespace already skipped). -/
def parseMembers (fuel : Nat) (cs : List Char) :
    Except String (List (String × Json) × List Char) :=
  match fuel with
  | 0 => .error "Input too deeply nested"
  | n + 1 =>
    match cs with
    | '"' :: rest =>
      match parseStringBody (rest.length + 1) rest [] with
      | .error e => .error e
      | .ok (k, r1) =>
        match skipWs r1 with
        | ':' :: r2 =>
          match parseValue n (skipWs r2) with
          | .error e => .error e
          | .ok (v, r3) =>
            match skipWs r3 with
            | ',' :: r4 =>
              match parseMembers n (skipWs r4) with
              | .error e => .error e
              | .ok (ms, r5) => .ok ((k, v) :: ms, r5)
            | '\x7d' :: r4 => .ok ([(k, v)], r4)
            | _ => .error "Expecting delimiter"
        | _ => .error "Expecting colon"
    | _ => .error "Expecting property name"

/-- Parse the non-empty element list of an array (input starts at the first
element, whitespace already skipped). -/
def parseElems (fuel : Nat) (cs : List Char) : Except String (List Json × List Char) :=
  match fuel with
  | 0 => .error "Input too deeply nested"
  | n + 1 =>
    match parseValue n cs with
    | .error e => .error e
    | .ok (v, r1) =>
      match skipWs r1 with
      | ',' :: r2 =>
        match parseElems n (skipWs r2) with
        | .error e => .error e
        | .ok (vs, r3) => .ok (v :: vs, r3)
      | ']' :: r2 => .ok ([v], r2)
      | _ => .error "Expecting delimiter"

end

/-- `json.loads(s)`: parse one value, then require that only whitespace
remains. -/
def json_loads (s : String) : Except String Json :=
  match parseValue (s.length + 8) (skipWs s.data) with
  | .error e => .error e
  | .ok (j, rest) =>
    if (skipWs rest).isEmpty then .ok j else .error "Extra data"

example : json_loads "\x7b\"a\": [1, true, null, \"x\"]\x7d" =
    .ok (Json.obj [("a", Json.arr [Json.num 1, Json.bool true, Json.null, Json.str "x"])]) := rfl

example : json_loads "\x7b\x7d" = .ok (Json.obj []) := rfl

example : (json_loads "\x7boops").isOk = false := rfl

example : (json_loads "").isOk = false := rfl

example : (json_loads "\x7b\"a\": 1,\x7d").isOk = false := rfl


/-- `BASE_API_URL` (line 23 of `langflow_runner.py`). -/
def BASE_API_URL : String := "https://api.langflow.astra.datastax.com"

/-- `DEFAULT_TWEAKS` (lines 33-40): a fixed mapping of component identifiers
to empty override objects. -/
def DEFAULT_TWEAKS : List (String × Json) :=
  [("AstraDBToolComponent-Dg6cx", Json.obj []),
   ("ParseData-r4Fhk", Json.obj []),
   ("GroqModel-ZMgtx", Json.obj []),
   ("ChatInput-D9hjW", Json.obj []),
   ("ChatOutput-ee0wn", Json.obj []),
   ("CombineText-SgCav", Json.obj [])]

/-- The process environment as seen by the program: the three variables read
at import time (lines 24-26), each possibly unset. -/
structure Env where
  LANGFLOW_ID : Option String
  FLOW_ID : Option String
  APPLICATION_TOKEN : Option String

/-- The command line as given by the user, before argparse defaults are
applied: each optional flag is `none` when omitted. -/
structure Cli where
  message : String
  endpoint : Option String
  tweaks : Option String
  application_token : Option String
  output_type : Option String
  input_type : Option String
  upload_file : Option String
  components : Option String
  save_output : Option String
  verbose : Bool
  raw : Bool

/-- The parsed argument namespace after argparse applies its defaults
(lines 109-121): `--endpoint` defaults to the `FLOW_ID` environment value,
`--tweaks` to `json.dumps(DEFAULT_TWEAKS)`, `--application_token` to the
`APPLICATION_TOKEN` environment value, the type flags to `"chat"`. -/
structure Args where
  message : String
  endpoint : Option String
  tweaks : String
  application_token : Option String
  output_type : String
  input_type : String
  upload_file : Option String
  components : Option String
  save_output : Option String
  verbose : Bool
  raw : Bool

/-- `parser.parse_args()` (lines 109-121): merge CLI values with their
environment-sourced or constant defaults. -/
def parseArgs (env : Env) (cli : Cli) : Args where
  message := cli.message
  endpoint := cli.endpoint.orElse fun _ => env.FLOW_ID
  tweaks := cli.tweaks.getD (dumpsVal (Json.obj DEFAULT_TWEAKS))
  application_token := cli.application_token.orElse fun _ => env.APPLICATION_TOKEN
  output_type := cli.output_type.getD "chat"
  input_type := cli.input_type.getD "chat"
  upload_file := cli.upload_file
  components := cli.components
  save_output := cli.save_output
  verbose := cli.verbose
  raw := cli.raw

/-- The exception classes `main` can raise before (or instead of) the
network call. -/
inductive ProgError where
  | valueError : String → ProgError
  | environmentError : String → ProgError
  | importError : String → ProgError
  | fileNotFoundError : String → ProgError

/-- `validate_env_vars()` (lines 42-55): collects the names of falsy
environment values and raises `EnvironmentError` listing them. -/
def validate_env_vars (env : Env) : Except ProgError Unit :=
  let missing :=
    (if pyTruthyStr env.LANGFLOW_ID then [] else ["LANGFLOW_ID"]) ++
    (if pyTruthyStr env.FLOW_ID then [] else ["FLOW_ID"]) ++
    (if pyTruthyStr env.APPLICATION_TOKEN then [] else ["APPLICATION_TOKEN"])
  if missing.isEmpty then .ok ()
  else
    .error (.environmentError
      ("Missing required environment variable(s): " ++ String.intercalate ", " missing ++
       ". Set them in your .env file or via command-line arguments."))

/-- Python substring containment (`needle in hay`) on character lists. -/
def listContainsSub (needle hay : List Char) : Bool :=
  match hay with
  | [] => needle.isEmpty
  | _ :: t => needle.isPrefixOf hay || listContainsSub needle t

/-- The HTTP request `run_flow` issues: URL, headers and JSON body. -/
structure Request where
  url : String
  headers : List (String × String)
  payload : Json

/-- Outcome of `requests.post` as observed by `run_flow`: either the call
itself raised (timeout, connection refused, DNS failure, ...) with message
`msg`, or a response arrived carrying a status code, a body text, and the
outcome of `.json()` on that body. -/
inductive TransportResult where
  | exn : String → TransportResult
  | response : Nat → String → Except String Json → TransportResult

/-- `response.raise_for_status()` raises exactly for 4xx and 5xx status
codes. -/
def isErrorStatus (status : Nat) : Bool :=
  (400 ≤ status && status < 500) || (500 ≤ status && status < 600)

/-- Python truthiness of the optional `tweaks` argument of `run_flow`. -/
def pyTruthyJsonOpt : Option Json → Bool
  | none => false
  | some j => j.pyTruthy

/-- The URL built on line 67:
`f"{BASE_API_URL}/lf/{LANGFLOW_ID}/api/v1/run/{endpoint}"`. -/
def run_flow_api_url (langflow_id : Option String) (endpoint : String) : String :=
  BASE_API_URL ++ "/lf/" ++ pyStrOpt langflow_id ++ "/api/v1/run/" ++ endpoint

/-- The JSON body built on lines 73-80: the three required fields, plus a
`tweaks` field exactly when the tweaks value is truthy. -/
def run_flow_payload (message output_type input_type : String) (tweaks : Option Json) : Json :=
  Json.obj
    ([("input_value", Json.str message),
      ("output_type", Json.str output_type),
      ("input_type", Json.str input_type)] ++
     (if pyTruthyJsonOpt tweaks then [("tweaks", tweaks.getD Json.null)] else []))

/-- The full request assembled on lines 67-80 (URL, bearer-token headers,
JSON body). -/
def run_flow_request (langflow_id : Option String)
    (message endpoint output_type input_type : String)
    (tweaks : Option Json) (application_token : Option String) : Request where
  url := run_flow_api_url langflow_id endpoint
  headers :=
    [("Authorization", "Bearer " ++ pyStrOpt application_token),
     ("Content-Type", "application/json")]
  payload := run_flow_payload message output_type input_type tweaks

/-- `run_flow` (lines 58-94).  The `try` block posts the request, raises for
error statuses, and parses the body; the first handler turns an `HTTPError`
into `{"error": "HTTP <status>: <text>"}`, the second turns any other
exception into `{"error": "<message>"}`.  The function always returns a
dict. -/
def run_flow (langflow_id : Option String)
    (message endpoint output_type input_type : String)
    (tweaks : Option Json) (application_token : Option String)
    (transport : Request → TransportResult) : Json :=
  match transport (run_flow_request langflow_id message endpoint output_type input_type
      tweaks application_token) with
  | .exn msg => Json.obj [("error", Json.str msg)]
  | .response status text body =>
    if isErrorStatus status then
      Json.obj [("error", Json.str ("HTTP " ++ toString status ++ ": " ++ text))]
    else
      match body with
      | .error msg => Json.obj [("error", Json.str msg)]
      | .ok j => j

/-- What a completed invocation of `main` produced: the request that was
sent, the response dict `run_flow` returned, the string printed to standard
output (lines 171-174), and the contents written to the save file when
`--save_output` was given (lines 177-183). -/
structure MainOutput where
  request : Request
  response : Json
  printed : String
  saved : Option String

/-- Lines 160-183 of `main`: call `run_flow` and format the response. -/
def mainFinish (env : Env) (args : Args) (tweaks : Json)
    (transport : Request → TransportResult) : MainOutput :=
  let response := run_flow env.LANGFLOW_ID args.message (args.endpoint.getD "")
    args.output_type args.input_type (some tweaks) args.application_token transport
  { request := run_flow_request env.LANGFLOW_ID args.message (args.endpoint.getD "")
      args.output_type args.input_type (some tweaks) args.application_token
    response := response
    printed := if args.raw then dumpsVal response else dumpsIndentVal 0 response
    saved := if pyTruthyStr args.save_output then some (dumpsIndentVal 0 response) else none }

/-- `main()` (lines 97-183) as a function of the environment, the command
line, and the three external oracles: the filesystem test
`Path(p).is_file()`, the availability and behavior of
`langflow.load.upload_file`, and the HTTP transport.  An uncaught exception
is an `.error`; a completed run is `.ok` with the observable outputs. -/
def mainRun (env : Env) (cli : Cli) (fs : String → Bool) (uploadAvailable : Bool)
    (upload : String → String → String → List String → Json → Json)
    (transport : Request → TransportResult) : Except ProgError MainOutput :=
  let args := parseArgs env cli
  if pyTruthyStr args.application_token = false then
    .error (.valueError
      "❌ Please set your actual APPLICATION_TOKEN via --application_token or .env file")
  else if listContainsSub "<YOUR_APPLICATION_TOKEN>".data (args.application_token.getD "").data then
    .error (.valueError
      "❌ Please set your actual APPLICATION_TOKEN via --application_token or .env file")
  else if pyTruthyStr args.endpoint = false then
    .error (.valueError
      "Missing flow ID. Please provide --endpoint or set FLOW_ID in your .env file.")
  else
    match json_loads args.tweaks with
    | .error _ => .error (.valueError "Invalid tweaks JSON string")
    | .ok tweaks0 =>
      match validate_env_vars env with
      | .error e => .error e
      | .ok _ =>
        if pyTruthyStr args.upload_file then
          if uploadAvailable = false then
            .error (.importError "Langflow is not installed. Install it with: pip install langflow")
          else if fs (args.upload_file.getD "") = false then
            .error (.fileNotFoundError
              ("❌ File \x27" ++ args.upload_file.getD "" ++ "\x27 does not exist."))
          else if pyTruthyStr args.components = false then
            .error (.valueError "You must provide --components to upload a file")
          else
            let components_list := ((args.components.getD "").splitOn ",").map String.trim
            .ok (mainFinish env args
              (upload (args.upload_file.getD "") BASE_API_URL (args.endpoint.getD "")
                components_list tweaks0)
              transport)
        else
          .ok (mainFinish env args tweaks0 transport)

/-- A `ConfigurationError` in the sense of the specification taxonomy: a
`ValueError` raised by `main` (missing/placeholder token, missing flow id,
invalid tweaks JSON, missing components). -/
def isConfigurationError : Except ProgError MainOutput → Bool
  | .error (.valueError _) => true
  | _ => false

/-- Whether a `json.loads` outcome is a parse failure. -/
def isLoadsError : Except String Json → Bool
  | .error _ => true
  | .ok _ => false

/-- Claim C1: `run_flow` never raises past the call boundary.  If the HTTP
response has an error status it returns exactly
`{"error": "HTTP <status>: <body text>"}`; if the transport itself failed
(timeout, connection refused, DNS failure) it returns `{"error": "<message>"}`
with the exception message; if the transport succeeded with a non-error
status but the body is malformed JSON it returns `{"error": "<message>"}`;
on success with a non-error status it returns the parsed JSON body
verbatim. -/
theorem run_flow_error_contract (langflow_id : Option String)
    (message endpoint output_type input_type : String)
    (tweaks : Option Json) (application_token : Option String) (t : TransportResult) :
    (∀ status text body, t = .response status text body → isErrorStatus status = true →
      run_flow langflow_id message endpoint output_type input_type tweaks application_token
          (fun _ => t) =
        Json.obj [("error", Json.str ("HTTP " ++ toString status ++ ": " ++ text))]) ∧
    (∀ msg, t = .exn msg →
      run_flow langflow_id message endpoint output_type input_type tweaks application_token
          (fun _ => t) =
        Json.obj [("error", Json.str msg)]) ∧
    (∀ status text msg, t = .response status text (.error msg) →
      isErrorStatus status = false →
      run_flow langflow_id message endpoint output_type input_type tweaks application_token
          (fun _ => t) =
        Json.obj [("error", Json.str msg)]) ∧
    (∀ status text j, t = .response status text (.ok j) → isErrorStatus status = false →
      run_flow langflow_id message endpoint output_type input_type tweaks application_token
          (fun _ => t) = j) := by
  refine ⟨?_, ?_, ?_, ?_⟩
  · rintro status text body rfl hstat
    simp [run_flow, hstat]
  · rintro msg rfl
    rfl
  · rintro status text msg rfl hstat
    simp [run_flow, hstat]
  · rintro status text j rfl hstat
    simp [run_flow, hstat]

/-- Witness for C1, at the simulated HTTP 500 response with body
`"server error"` named by the specification. -/
theorem run_flow_error_contract_check :
    run_flow (some "LID") "hi" "flow-1" "chat" "chat" none (some "tok")
      (fun _ => TransportResult.response 500 "server error" (Except.ok Json.null)) =
      Json.obj [("error", Json.str "HTTP 500: server error")] := by
  have h := (run_flow_error_contract (some "LID") "hi" "flow-1" "chat" "chat" none
      (some "tok") (TransportResult.response 500 "server error" (Except.ok Json.null))).1
    500 "server error" (Except.ok Json.null) rfl (by decide)
  exact h.trans rfl

/-- Claim C7: the JSON request body contains exactly `input_value`,
`output_type` and `input_type`, plus a `tweaks` field if and only if the
supplied tweaks mapping is non-empty (an absent or empty mapping yields a
body with no `tweaks` key). -/
theorem payload_fields_exact (langflow_id : Option String)
    (message endpoint output_type input_type : String)
    (tw : Option (List (String × Json))) (application_token : Option String) :
    (run_flow_request langflow_id message endpoint output_type input_type
        (tw.map Json.obj) application_token).payload =
      Json.obj
        ([("input_value", Json.str message),
          ("output_type", Json.str output_type),
          ("input_type", Json.str input_type)] ++
         (if (tw.getD []).isEmpty then [] else [("tweaks", Json.obj (tw.getD []))])) := by
  cases tw with
  | none => rfl
  | some l =>
    cases l with
    | nil => rfl
    | cons a as => rfl

/-- Claim C8: the request URL is exactly the fixed base host followed by
`/lf/<namespace>/api/v1/run/<endpoint>`. -/
theorem request_url_template (L endpoint message output_type input_type : String)
    (tweaks : Option Json) (application_token : Option String) :
    (run_flow_request (some L) message endpoint output_type input_type tweaks
        application_token).url =
      "https://api.langflow.astra.datastax.com/lf/" ++ L ++ "/api/v1/run/" ++ endpoint := rfl

/-- Claim C10: the placeholder-token check is substring containment, not
equality.  A token that merely contains `<YOUR_APPLICATION_TOKEN>` as a
proper substring, while not being equal to the sentinel, still makes
configuration resolution fail with the placeholder-token error. -/
theorem placeholder_check_substring :
    ¬(("my<YOUR_APPLICATION_TOKEN>0" : String) = "<YOUR_APPLICATION_TOKEN>") ∧
    mainRun ⟨some "LID", some "FID", some "TOK"⟩
      ⟨"hello", some "flow-1", some "\x7b\x7d", some "my<YOUR_APPLICATION_TOKEN>0",
       none, none, none, none, none, false, false⟩
      (fun _ => false) true (fun _ _ _ _ tw => tw)
      (fun _ => TransportResult.exn "unreachable") =
      Except.error (ProgError.valueError
        "❌ Please set your actual APPLICATION_TOKEN via --application_token or .env file") :=
  ⟨by decide, rfl⟩

/-- Counterexample to claim C2 as frozen: with `LANGFLOW_ID`, `FLOW_ID` and
`APPLICATION_TOKEN` all unset and both the application token and the flow
identifier supplied as explicit command-line arguments, configuration
resolution does NOT succeed: `validate_env_vars` (line 136) checks the
environment-sourced globals unconditionally and aborts with a
missing-environment-variable error before any network call. -/
theorem cli_args_env_unset_counterexample :
    mainRun ⟨none, none, none⟩
      ⟨"hello", some "flow-1", none, some "real-token-123", none, none, none, none, none,
       false, false⟩
      (fun _ => false) true (fun _ _ _ _ tw => tw)
      (fun _ => TransportResult.exn "unreachable") =
      Except.error (ProgError.environmentError
        "Missing required environment variable(s): LANGFLOW_ID, FLOW_ID, APPLICATION_TOKEN. Set them in your .env file or via command-line arguments.") := rfl

/-- Claim C2 (amended): when the application token and the flow identifier
are supplied as explicit command-line arguments, those CLI values do override
the environment-sourced defaults; but configuration resolution additionally
requires the three environment variables themselves, because
`validate_env_vars` checks them unconditionally — whenever it fails,
`main` aborts with its missing-environment-variable error before any network
call, even with valid CLI overrides in place. -/
theorem cli_overrides_but_env_still_validated (env : Env) (cli : Cli)
    (fs : String → Bool) (uploadAvailable : Bool)
    (upload : String → String → String → List String → Json → Json)
    (transport : Request → TransportResult) (e : ProgError)
    (h1 : pyTruthyStr (parseArgs env cli).application_token = true)
    (h2 : listContainsSub "<YOUR_APPLICATION_TOKEN>".data
        (((parseArgs env cli).application_token).getD "").data = false)
    (h3 : pyTruthyStr (parseArgs env cli).endpoint = true)
    (h4 : isLoadsError (json_loads (parseArgs env cli).tweaks) = false)
    (h5 : validate_env_vars env = .error e) :
    (∀ s, cli.application_token = some s → (parseArgs env cli).application_token = some s) ∧
    (∀ s, cli.endpoint = some s → (parseArgs env cli).endpoint = some s) ∧
    mainRun env cli fs uploadAvailable upload transport = .error e := by
  refine ⟨?_, ?_, ?_⟩
  · intro s hs
    simp only [parseArgs]
    rw [hs]
    rfl
  · intro s hs
    simp only [parseArgs]
    rw [hs]
    rfl
  · cases hj : json_loads (parseArgs env cli).tweaks with
    | error e2 =>
      rw [hj] at h4
      simp [isLoadsError] at h4
    | ok j =>
      simp [mainRun, h1, h2, h3, hj, h5]

/-- Witness for the amended C2: CLI-supplied token and flow id, environment
with `LANGFLOW_ID` and `APPLICATION_TOKEN` unset — resolution aborts with the
missing-environment-variable error. -/
theorem cli_overrides_but_env_still_validated_check :
    mainRun ⟨none, some "FID", none⟩
      ⟨"hello", some "flow-1", some "\x7b\x7d", some "tok-1", none, none, none, none, none,
       false, false⟩
      (fun _ => false) true (fun _ _ _ _ tw => tw)
      (fun _ => TransportResult.exn "unreachable") =
      Except.error (ProgError.environmentError
        "Missing required environment variable(s): LANGFLOW_ID, APPLICATION_TOKEN. Set them in your .env file or via command-line arguments.") :=
  (cli_overrides_but_env_still_validated ⟨none, some "FID", none⟩
    ⟨"hello", some "flow-1", some "\x7b\x7d", some "tok-1", none, none, none, none, none,
     false, false⟩
    (fun _ => false) true (fun _ _ _ _ tw => tw)
    (fun _ => TransportResult.exn "unreachable")
    (ProgError.environmentError
      "Missing required environment variable(s): LANGFLOW_ID, APPLICATION_TOKEN. Set them in your .env file or via command-line arguments.")
    rfl (by decide) rfl rfl rfl).2.2

/-- Claim C3: configuration resolution fails with a configuration error,
before any network call, whenever the merged application token is absent
(falsy) or equals the placeholder sentinel, or no flow identifier is
resolvable from the merged `--endpoint` value.  The transport oracle is
universally quantified and unused: no request is issued. -/
theorem config_error_token_or_flow (env : Env) (cli : Cli) (fs : String → Bool)
    (uploadAvailable : Bool)
    (upload : String → String → String → List String → Json → Json)
    (transport : Request → TransportResult)
    (h : pyTruthyStr (parseArgs env cli).application_token = false ∨
         (parseArgs env cli).application_token = some "<YOUR_APPLICATION_TOKEN>" ∨
         pyTruthyStr (parseArgs env cli).endpoint = false) :
    isConfigurationError (mainRun env cli fs uploadAvailable upload transport) = true := by
  rcases h with h | h | h
  · simp [mainRun, h, isConfigurationError]
  · have hsub : listContainsSub "<YOUR_APPLICATION_TOKEN>".data
        (((parseArgs env cli).application_token).getD "").data = true := by
      rw [h]
      decide
    by_cases ht : pyTruthyStr (parseArgs env cli).application_token = false
    · simp [mainRun, ht, isConfigurationError]
    · simp [mainRun, ht, hsub, isConfigurationError]
  · by_cases h1 : pyTruthyStr (parseArgs env cli).application_token = false
    · simp [mainRun, h1, isConfigurationError]
    · by_cases h2 : listContainsSub "<YOUR_APPLICATION_TOKEN>".data
          (((parseArgs env cli).application_token).getD "").data = true
      · simp [mainRun, h1, h2, isConfigurationError]
      · simp [mainRun, h1, h2, h, isConfigurationError]

/-- Witness for C3: all three environment values set, no CLI overrides, and
the environment token equal to the placeholder sentinel — the resolver fails
with a configuration error. -/
theorem config_error_token_or_flow_check :
    isConfigurationError (mainRun ⟨some "LID", some "FID", some "<YOUR_APPLICATION_TOKEN>"⟩
      ⟨"hello", none, some "\x7b\x7d", none, none, none, none, none, none, false, false⟩
      (fun _ => false) true (fun _ _ _ _ tw => tw)
      (fun _ => TransportResult.exn "unreachable")) = true :=
  config_error_token_or_flow ⟨some "LID", some "FID", some "<YOUR_APPLICATION_TOKEN>"⟩
    ⟨"hello", none, some "\x7b\x7d", none, none, none, none, none, none, false, false⟩
    (fun _ => false) true (fun _ _ _ _ tw => tw)
    (fun _ => TransportResult.exn "unreachable")
    (Or.inr (Or.inl rfl))

/-- Claim C4: a malformed `--tweaks` JSON string makes configuration
resolution fail with a configuration error (a `ValueError`), and no network
call is ever attempted — whichever of the earlier validation guards fires,
the result is an error for every transport oracle. -/
theorem malformed_tweaks_fails_before_network (env : Env) (cli : Cli) (fs : String → Bool)
    (uploadAvailable : Bool)
    (upload : String → String → String → List String → Json → Json)
    (transport : Request → TransportResult)
    (h : isLoadsError (json_loads (parseArgs env cli).tweaks) = true) :
    isConfigurationError (mainRun env cli fs uploadAvailable upload transport) = true := by
  by_cases h1 : pyTruthyStr (parseArgs env cli).application_token = false
  · simp [mainRun, h1, isConfigurationError]
  · by_cases h2 : listContainsSub "<YOUR_APPLICATION_TOKEN>".data
        (((parseArgs env cli).application_token).getD "").data = true
    · simp [mainRun, h1, h2, isConfigurationError]
    · by_cases h3 : pyTruthyStr (parseArgs env cli).endpoint = false
      · simp [mainRun, h1, h2, h3, isConfigurationError]
      · cases hj : json_loads (parseArgs env cli).tweaks with
        | error e =>
          simp [mainRun, h1, h2, h3, hj, isConfigurationError]
        | ok j =>
          rw [hj] at h
          simp [isLoadsError] at h

/-- Witness for C4: a malformed tweaks string, with everything else valid. -/
theorem malformed_tweaks_fails_before_network_check :
    isLoadsError (json_loads "\x7boops") = true ∧
    isConfigurationError (mainRun ⟨some "LID", some "FID", some "TOK"⟩
      ⟨"hi", some "flow-1", some "\x7boops", some "tok-1", none, none, none, none, none,
       false, false⟩
      (fun _ => false) true (fun _ _ _ _ tw => tw)
      (fun _ => TransportResult.exn "unreachable")) = true :=
  ⟨rfl, malformed_tweaks_fails_before_network ⟨some "LID", some "FID", some "TOK"⟩
    ⟨"hi", some "flow-1", some "\x7boops", some "tok-1", none, none, none, none, none,
     false, false⟩
    (fun _ => false) true (fun _ _ _ _ tw => tw)
    (fun _ => TransportResult.exn "unreachable") rfl⟩

/-- Claim C5: in an otherwise valid invocation (token, flow id, tweaks and
environment all valid, upload capability available) where `--upload_file`
names a path that is not an existing regular file, the program fails with a
file-not-found error; the transport oracle is universally quantified and
unused, so no network call is attempted. -/
theorem upload_file_not_found_aborts (env : Env) (cli : Cli) (fs : String → Bool)
    (upload : String → String → String → List String → Json → Json)
    (transport : Request → TransportResult)
    (h1 : pyTruthyStr (parseArgs env cli).application_token = true)
    (h2 : listContainsSub "<YOUR_APPLICATION_TOKEN>".data
        (((parseArgs env cli).application_token).getD "").data = false)
    (h3 : pyTruthyStr (parseArgs env cli).endpoint = true)
    (h4 : isLoadsError (json_loads (parseArgs env cli).tweaks) = false)
    (h5 : validate_env_vars env = .ok ())
    (h6 : pyTruthyStr (parseArgs env cli).upload_file = true)
    (h7 : fs ((parseArgs env cli).upload_file.getD "") = false) :
    mainRun env cli fs true upload transport =
      .error (.fileNotFoundError
        ("❌ File \x27" ++ (parseArgs env cli).upload_file.getD "" ++
         "\x27 does not exist.")) := by
  cases hj : json_loads (parseArgs env cli).tweaks with
  | error e =>
    rw [hj] at h4
    simp [isLoadsError] at h4
  | ok j =>
    simp [mainRun, h1, h2, h3, hj, h5, h6, h7]

/-- Witness for C5: `--upload_file missing.csv` on a filesystem where no
path is a regular file. -/
theorem upload_file_not_found_aborts_check :
    mainRun ⟨some "LID", some "FID", some "TOK"⟩
      ⟨"hi", some "flow-1", some "\x7b\x7d", some "tok-1", none, none, some "missing.csv",
       some "ParseData-r4Fhk", none, false, false⟩
      (fun _ => false) true (fun _ _ _ _ tw => tw)
      (fun _ => TransportResult.exn "unreachable") =
      Except.error (ProgError.fileNotFoundError
        "❌ File \x27missing.csv\x27 does not exist.") :=
  (upload_file_not_found_aborts ⟨some "LID", some "FID", some "TOK"⟩
    ⟨"hi", some "flow-1", some "\x7b\x7d", some "tok-1", none, none, some "missing.csv",
     some "ParseData-r4Fhk", none, false, false⟩
    (fun _ => false) (fun _ _ _ _ tw => tw)
    (fun _ => TransportResult.exn "unreachable")
    rfl (by decide) rfl rfl rfl rfl rfl).trans rfl

/-- Claim C6: in an otherwise valid invocation where `--upload_file` names an
existing regular file but `--components` is omitted or empty, the program
fails with a configuration error (`ValueError`); the transport oracle is
universally quantified and unused, so no network call is attempted. -/
theorem upload_components_required (env : Env) (cli : Cli) (fs : String → Bool)
    (upload : String → String → String → List String → Json → Json)
    (transport : Request → TransportResult)
    (h1 : pyTruthyStr (parseArgs env cli).application_token = true)
    (h2 : listContainsSub "<YOUR_APPLICATION_TOKEN>".data
        (((parseArgs env cli).application_token).getD "").data = false)
    (h3 : pyTruthyStr (parseArgs env cli).endpoint = true)
    (h4 : isLoadsError (json_loads (parseArgs env cli).tweaks) = false)
    (h5 : validate_env_vars env = .ok ())
    (h6 : pyTruthyStr (parseArgs env cli).upload_file = true)
    (h7 : fs ((parseArgs env cli).upload_file.getD "") = true)
    (h8 : pyTruthyStr (parseArgs env cli).components = false) :
    mainRun env cli fs true upload transport =
      .error (.valueError "You must provide --components to upload a file") := by
  cases hj : json_loads (parseArgs env cli).tweaks with
  | error e =>
    rw [hj] at h4
    simp [isLoadsError] at h4
  | ok j =>
    simp [mainRun, h1, h2, h3, hj, h5, h6, h7, h8]

/-- Witness for C6: `--upload_file data.csv` pointing at an existing file,
`--components` omitted. -/
theorem upload_components_required_check :
    mainRun ⟨some "LID", some "FID", some "TOK"⟩
      ⟨"hi", some "flow-1", some "\x7b\x7d", some "tok-1", none, none, some "data.csv",
       none, none, false, false⟩
      (fun _ => true) true (fun _ _ _ _ tw => tw)
      (fun _ => TransportResult.exn "unreachable") =
      Except.error (ProgError.valueError "You must provide --components to upload a file") :=
  upload_components_required ⟨some "LID", some "FID", some "TOK"⟩
    ⟨"hi", some "flow-1", some "\x7b\x7d", some "tok-1", none, none, some "data.csv",
     none, none, false, false⟩
    (fun _ => true) (fun _ _ _ _ tw => tw)
    (fun _ => TransportResult.exn "unreachable")
    rfl (by decide) rfl rfl rfl rfl rfl rfl

/-- Claim C9: on every completed invocation, the printed string is the
compact serialization of the response when `--raw` is given and the 2-space
indented serialization otherwise, and when `--save_output` is given the
saved contents are always the 2-space indented serialization — the same
text the non-raw mode prints. -/
theorem output_formatting_modes (env : Env) (cli : Cli) (fs : String → Bool)
    (uploadAvailable : Bool)
    (upload : String → String → String → List String → Json → Json)
    (transport : Request → TransportResult) (out : MainOutput)
    (h : mainRun env cli fs uploadAvailable upload transport = .ok out) :
    out.printed =
      (if cli.raw then dumpsVal out.response else dumpsIndentVal 0 out.response) ∧
    (cli.raw = false → out.printed = dumpsIndentVal 0 out.response) ∧
    out.saved =
      (if pyTruthyStr cli.save_output then some (dumpsIndentVal 0 out.response) else none) ∧
    (pyTruthyStr cli.save_output = true →
      out.saved = some (dumpsIndentVal 0 out.response)) := by
  have hex : ∃ tw, out = mainFinish env (parseArgs env cli) tw transport := by
    simp only [mainRun] at h
    repeat' split at h
    all_goals
      first
        | exact Except.noConfusion h
        | (injection h with h2
           exact ⟨_, h2.symm⟩)
  obtain ⟨tw, rfl⟩ := hex
  refine ⟨?_, ?_, ?_, ?_⟩
  · simp [mainFinish, parseArgs]
  · intro hr
    simp [mainFinish, parseArgs, hr]
  · simp [mainFinish, parseArgs]
  · intro hs
    simp [mainFinish, parseArgs, hs]

/-- Environment for the C9 witness run: all three variables set. -/
def envW : Env := ⟨some "LID", some "FID", some "TOK"⟩

/-- Command line for the C9 witness run without `--raw` and with
`--save_output out.json`. -/
def cliSaveW : Cli :=
  ⟨"hello", none, some "\x7b\x7d", none, none, none, none, none, some "out.json",
   false, false⟩

/-- Command line for the C9 witness run with `--raw` and no save path. -/
def cliRawW : Cli :=
  ⟨"hello", none, some "\x7b\x7d", none, none, none, none, none, none, false, true⟩

/-- Transport for the C9 witness runs: an HTTP 200 response whose body parses
to `{"result": "ok"}`. -/
def transportOkW : Request → TransportResult :=
  fun _ => .response 200 "" (.ok (Json.obj [("result", Json.str "ok")]))

/-- Upload oracle for the witness runs (unused: no `--upload_file`). -/
def uploadIdW : String → String → String → List String → Json → Json :=
  fun _ _ _ _ tw => tw

/-- Completed output of the non-raw C9 witness run. -/
def outSaveW : MainOutput := mainFinish envW (parseArgs envW cliSaveW) (Json.obj []) transportOkW

/-- Completed output of the raw C9 witness run. -/
def outRawW : MainOutput := mainFinish envW (parseArgs envW cliRawW) (Json.obj []) transportOkW

/-- Witness for C9 at the specification examples: without `--raw` the
response `{"result": "ok"}` is printed with 2-space indentation and the
saved file holds that same indented text; with `--raw` the printed text is
the compact form. -/
theorem output_formatting_modes_check :
    mainRun envW cliSaveW (fun _ => false) true uploadIdW transportOkW = Except.ok outSaveW ∧
    outSaveW.response = Json.obj [("result", Json.str "ok")] ∧
    outSaveW.printed = "\x7b\n  \"result\": \"ok\"\n\x7d" ∧
    outSaveW.saved = some "\x7b\n  \"result\": \"ok\"\n\x7d" ∧
    mainRun envW cliRawW (fun _ => false) true uploadIdW transportOkW = Except.ok outRawW ∧
    outRawW.printed = "\x7b\"result\": \"ok\"\x7d" ∧
    outRawW.saved = none := by
  have h1 := output_formatting_modes envW cliSaveW (fun _ => false) true uploadIdW
    transportOkW outSaveW rfl
  have h2 := output_formatting_modes envW cliRawW (fun _ => false) true uploadIdW
    transportOkW outRawW rfl
  refine ⟨rfl, rfl, ?_, ?_, rfl, ?_, ?_⟩
  · exact (h1.2.1 rfl).trans rfl
  · exact (h1.2.2.2 rfl).trans rfl
  · exact h2.1.trans rfl
  · exact h2.2.2.1.trans rfl
